import Mathlib

/-!
Verification of the process-lifecycle-and-pipe-pump subsystem implemented in
`server/async_python_subprocess.py` (class `AsyncPythonSubprocess`).

The development has two layers.

Layer 1 is a pure shallow embedding of the helper functions of the source:
the prompt-framing decoder `_read_stdout` (function `read_stdout` below,
together with the byte-level embeddings `pyReadline`, `streamRead` and the
Python `int()` parser `pyInt`), the process-launch helper
`_open_child_process` (function `open_child_process`), and the `start` /
`await_end` entry points of the session object.

Layer 2 is a small-step transition system over `SysState` that embeds the
three concurrent tasks launched by `start()` — the stdout pump
(`_stdout_pipe`), the stderr pump (`_stderr_pipe`) and the exit watcher
(`_exit`) — together with environment steps (child exit, client
disconnect).  Bytes are `Nat`s below 256, text is carried as raw byte
lists, and the event sink is modelled by an append-only trace of `Event`s;
a send succeeds exactly when the websocket is connected at the moment of
the send.
-/

namespace AsyncPySub

/-! ## Layer 1: byte-level primitives of the decoder -/

/-- ASCII decimal digit test, on a byte. -/
def isDigitB (b : Nat) : Bool := 48 ≤ b && b ≤ 57

/-- ASCII whitespace test, on a byte (the characters Python `int()` strips). -/
def isSpaceB (b : Nat) : Bool := b == 32 || (9 ≤ b && b ≤ 13)

/-- Strip leading and trailing ASCII whitespace, as Python `int()` does. -/
def stripB (s : List Nat) : List Nat :=
  ((s.dropWhile isSpaceB).reverse.dropWhile isSpaceB).reverse

/-- Continuation of a digit group: digits with single underscores strictly
between digits, as accepted by Python `int()`. -/
def okRest : List Nat → Bool
  | [] => true
  | [95] => false
  | 95 :: b :: rest => isDigitB b && okRest rest
  | b :: rest => isDigitB b && okRest rest

/-- A nonempty digit group (underscores allowed between digits). -/
def okUnd : List Nat → Bool
  | [] => false
  | b :: rest => isDigitB b && okRest rest

/-- Numeric value of a digit group, ignoring underscores. -/
def digitsVal (s : List Nat) : Nat :=
  (s.filter (fun b => b != 95)).foldl (fun a b => a * 10 + (b - 48)) 0

/-- Parse an unsigned digit group, or fail. -/
def parseDigitsU (s : List Nat) : Option Nat :=
  if okUnd s then some (digitsVal s) else none

/-- Embedding of Python `int(str)` on ASCII bytes: strip whitespace, optional
sign, then a nonempty digit group; `none` models the `ValueError` raised on
malformed (non-numeric) input. -/
def pyInt (s : List Nat) : Option Int :=
  match stripB s with
  | 43 :: rest => (parseDigitsU rest).map (fun n => (n : Int))
  | 45 :: rest => (parseDigitsU rest).map (fun n => -(n : Int))
  | rest => (parseDigitsU rest).map (fun n => (n : Int))

/-- Embedding of `StreamReader.readline()` on a fully buffered stream: the
returned line includes its newline terminator; with no newline the rest of
the stream is returned (and `[]` at end-of-stream). -/
def pyReadline : List Nat → List Nat × List Nat
  | [] => ([], [])
  | b :: rest =>
    if b = 10 then ([10], rest)
    else
      let r := pyReadline rest
      (b :: r.1, r.2)

/-- Embedding of `StreamReader.read(n)` on a fully buffered stream: a
negative `n` reads everything up to end-of-stream, a nonnegative `n` reads at
most `n` bytes. -/
def streamRead (n : Int) (s : List Nat) : List Nat × List Nat :=
  if n < 0 then (s, []) else (s.take n.toNat, s.drop n.toNat)

/-- The 4-byte prompt marker `b"\xff\xff\xff\xff"`. -/
def promptMarker : List Nat := [255, 255, 255, 255]

/-- The error raised when the prompt-length field is malformed
(`int()` raises `ValueError`). -/
inductive DecErr where
  | malformedLength
deriving DecidableEq

/-- The marker branch of `_read_stdout`: `int(...)` raising on a malformed
length field, otherwise `stdout.read(length)` on the remaining stream. -/
def promptPayload (rest : List Nat) :
    Option Int → Except DecErr ((List Nat × Bool) × List Nat)
  | none => Except.error DecErr.malformedLength
  | some n =>
    Except.ok (((streamRead n rest).1, true), (streamRead n rest).2)

/-- Embedding of `_read_stdout`: read one line; if it starts with the 4-byte
marker, parse the rest of the line as a decimal length and read that many raw
payload bytes (`isPrompt = true`); otherwise the unit is the whole line
(`isPrompt = false`).  Returns the unit and the remaining stream. -/
def read_stdout (s : List Nat) : Except DecErr ((List Nat × Bool) × List Nat) :=
  if (pyReadline s).1.take 4 = promptMarker then
    promptPayload (pyReadline s).2 (pyInt ((pyReadline s).1.drop 4))
  else
    Except.ok (((pyReadline s).1, false), (pyReadline s).2)

/-! ## Layer 1: process launch and session entry points -/

/-- The arguments of `subprocess.Popen` used by `_open_child_process`. -/
structure PopenConfig where
  args : List String
  stdoutPipe : Bool
  stderrPipe : Bool
  stdinPipe : Bool
  text : Bool
  bufsize : Nat
deriving DecidableEq

/-- Embedding of `_open_child_process`: the exact `Popen` call of the source. -/
def open_child_process (module : String) : PopenConfig :=
  { args := ["python3", "-Xfrozen_modules=off", "-m", "server.wrappers.module", module]
    stdoutPipe := true
    stderrPipe := true
    stdinPipe := true
    text := true
    bufsize := 0 }

/-- The session object (`AsyncPythonSubprocess`): the module to run, the
process handle (`none` until `start()`), and the wiring/tasks created by
`start()`. -/
structure Session where
  module : String
  process : Option PopenConfig
  pidField : Option Nat
  stdinWired : Bool
  stdoutTaskStarted : Bool
  stderrTaskStarted : Bool
  exitTaskStarted : Bool
deriving DecidableEq

/-- Embedding of `__init__`: no process yet, nothing wired. -/
def mkSession (m : String) : Session :=
  { module := m, process := none, pidField := none, stdinWired := false,
    stdoutTaskStarted := false, stderrTaskStarted := false, exitTaskStarted := false }

/-- Embedding of `start()`: spawn the child (`_open_child_process`), wire
stdin, launch the stdout pump, stderr pump and exit-watcher tasks, return the
pid.  `osPid` is the pid the operating system assigns.  Faithful to the
source: there is no not-already-started check. -/
def start (s : Session) (osPid : Nat) : Session × Nat :=
  ({ s with
      process := some (open_child_process s.module)
      pidField := some osPid
      stdinWired := true
      stdoutTaskStarted := true
      stderrTaskStarted := true
      exitTaskStarted := true }, osPid)

/-! ## Layer 2: the concurrent system as a small-step transition relation -/

/-- The events sent over the websocket (`WebSocketEvent`): STDOUT carries
pid, data and the prompt flag; STDERR carries pid and data; EXIT carries pid
and return code. -/
inductive Event where
  | stdoutEv (pid : Nat) (data : List Nat) (isPrompt : Bool)
  | stderrEv (pid : Nat) (data : List Nat)
  | exitEv (pid : Nat) (returncode : Int)
deriving DecidableEq

/-- Control state of a pump task: at the top of its `while` loop (about to
read), suspended just before a send with the decoded unit in hand, or broken
out of the loop. -/
inductive PumpSt where
  | atRead
  | atSend (data : List Nat) (isPrompt : Bool)
  | done
deriving DecidableEq

/-- Control state of the exit watcher task `_exit`: polling in its loop,
joining the two pump tasks (`asyncio.gather`), suspended in the final EXIT
send after a successful connectivity check, broken out of the loop, or
terminated by an uncaught exception from the EXIT send. -/
inductive WatchSt where
  | polling
  | draining
  | sending
  | done
  | failed
deriving DecidableEq

/-- Global state of one session: the unread bytes of the child's stdout and
stderr, the child's liveness and recorded return code, whether `kill()` has
been issued, the websocket connection state, the control state of the three
tasks, the trace of events sent so far, and the child's pid. -/
structure SysState where
  outBuf : List Nat
  errBuf : List Nat
  childRunning : Bool
  retcode : Int
  killed : Bool
  connected : Bool
  outPump : PumpSt
  errPump : PumpSt
  watcher : WatchSt
  events : List Event
  pid : Nat
deriving DecidableEq

/-- A blocking read can complete when the buffer holds a full line, or the
child has exited (end-of-stream makes `readline` return what is left). -/
def lineReady (buf : List Nat) (exited : Bool) : Bool :=
  exited || buf.contains 10

/-- Result of one attempted `_read_stdout` (or `readline`) call inside a
pump iteration. -/
inductive ReadRes where
  | blocked
  | decodeErr (rest : List Nat)
  | unit (data : List Nat) (isPrompt : Bool) (rest : List Nat)
deriving DecidableEq

/-- One `_read_stdout` call of the stdout pump against the unread buffer:
`blocked` when the awaited bytes are not yet available, `decodeErr` when the
prompt-length field is malformed (the marker line is consumed), otherwise the
decoded unit and the remaining buffer. -/
def readStdoutStep (buf : List Nat) (exited : Bool) : ReadRes :=
  if lineReady buf exited = false then ReadRes.blocked
  else
    if (pyReadline buf).1.take 4 = promptMarker then
      match pyInt ((pyReadline buf).1.drop 4) with
      | none => ReadRes.decodeErr (pyReadline buf).2
      | some n =>
        if n < 0 ∧ exited = false then ReadRes.blocked
        else if 0 ≤ n ∧ exited = false ∧ (pyReadline buf).2.length < n.toNat then
          ReadRes.blocked
        else
          ReadRes.unit (streamRead n (pyReadline buf).2).1 true
            (streamRead n (pyReadline buf).2).2
    else ReadRes.unit (pyReadline buf).1 false (pyReadline buf).2

/-- One `readline` call of the stderr pump (plain line framing, no prompt
detection). -/
def readStderrStep (buf : List Nat) (exited : Bool) : ReadRes :=
  if lineReady buf exited = false then ReadRes.blocked
  else ReadRes.unit (pyReadline buf).1 false (pyReadline buf).2

/-- The pump's checks after a successful decode, from the source: break when
the text is empty and the child has exited, or when the client is no longer
connected; send when the text is nonempty; otherwise loop. -/
def pumpAfterRead (exited connected : Bool) (d : List Nat) (p : Bool) : PumpSt :=
  if (d.isEmpty && exited) || !connected then PumpSt.done
  else if d.isEmpty then PumpSt.atRead
  else PumpSt.atSend d p

/-- One poll iteration of `_exit`: kill the child if the client is gone, then
either move to draining (child exited) or sleep and stay polling. -/
def pollNext (s : SysState) : SysState :=
  let killed2 := if s.connected = false then true else s.killed
  if s.childRunning = false then { s with killed := killed2, watcher := WatchSt.draining }
  else { s with killed := killed2 }

/-- Small-step transition relation of the session: interleaving of the two
pump tasks, the exit watcher, and the environment (child exit, client
disconnect).  A send succeeds exactly when the websocket is connected at the
moment of the send; a failed pump send is caught by the pump's
`except Exception` handler (the loop continues), while a failed watcher send
is uncaught (`.failed`). -/
inductive Step : SysState → SysState → Prop where
  | childExit (s : SysState) (rc : Int) :
      s.childRunning = true →
      Step s { s with childRunning := false, retcode := rc }
  | disconnect (s : SysState) :
      s.connected = true →
      Step s { s with connected := false }
  | outRead (s : SysState) (d : List Nat) (p : Bool) (rest : List Nat) :
      s.outPump = PumpSt.atRead →
      readStdoutStep s.outBuf (!s.childRunning) = ReadRes.unit d p rest →
      Step s { s with outBuf := rest,
                      outPump := pumpAfterRead (!s.childRunning) s.connected d p }
  | outReadErr (s : SysState) (rest : List Nat) :
      s.outPump = PumpSt.atRead →
      readStdoutStep s.outBuf (!s.childRunning) = ReadRes.decodeErr rest →
      Step s { s with outBuf := rest }
  | outSendOk (s : SysState) (d : List Nat) (p : Bool) :
      s.outPump = PumpSt.atSend d p →
      s.connected = true →
      Step s { s with outPump := PumpSt.atRead,
                      events := s.events ++ [Event.stdoutEv s.pid d p] }
  | outSendFail (s : SysState) (d : List Nat) (p : Bool) :
      s.outPump = PumpSt.atSend d p →
      s.connected = false →
      Step s { s with outPump := PumpSt.atRead }
  | errRead (s : SysState) (d : List Nat) (p : Bool) (rest : List Nat) :
      s.errPump = PumpSt.atRead →
      readStderrStep s.errBuf (!s.childRunning) = ReadRes.unit d p rest →
      Step s { s with errBuf := rest,
                      errPump := pumpAfterRead (!s.childRunning) s.connected d p }
  | errSendOk (s : SysState) (d : List Nat) (p : Bool) :
      s.errPump = PumpSt.atSend d p →
      s.connected = true →
      Step s { s with errPump := PumpSt.atRead,
                      events := s.events ++ [Event.stderrEv s.pid d] }
  | errSendFail (s : SysState) (d : List Nat) (p : Bool) :
      s.errPump = PumpSt.atSend d p →
      s.connected = false →
      Step s { s with errPump := PumpSt.atRead }
  | watchPoll (s : SysState) :
      s.watcher = WatchSt.polling →
      Step s (pollNext s)
  | watchJoin (s : SysState) :
      s.watcher = WatchSt.draining →
      s.outPump = PumpSt.done →
      s.errPump = PumpSt.done →
      Step s { s with watcher := if s.connected then WatchSt.sending else WatchSt.done }
  | watchSendOk (s : SysState) :
      s.watcher = WatchSt.sending →
      s.connected = true →
      Step s { s with watcher := WatchSt.done,
                      events := s.events ++ [Event.exitEv s.pid s.retcode] }
  | watchSendFail (s : SysState) :
      s.watcher = WatchSt.sending →
      s.connected = false →
      Step s { s with watcher := WatchSt.failed }

/-- Reflexive-transitive closure of `Step`. -/
inductive Reach : SysState → SysState → Prop where
  | refl (s : SysState) : Reach s s
  | tail (s t u : SysState) : Reach s t → Step t u → Reach s u

/-- State right after `start()` returned: full child output buffered as `o`
and `e`, child alive, client connected, all three tasks at the top of their
loops, no events sent. -/
def initState (o e : List Nat) (p : Nat) : SysState :=
  { outBuf := o, errBuf := e, childRunning := true, retcode := 0, killed := false,
    connected := true, outPump := PumpSt.atRead, errPump := PumpSt.atRead,
    watcher := WatchSt.polling, events := [], pid := p }

/-- Outcome of `await_end()`. -/
inductive AwaitRes where
  | notStarted
  | watcherError
  | resultCode (rc : Int)
deriving DecidableEq

/-- Embedding of `await_end()`: raise `Exception("Process not started...")`
when `start()` has not run; otherwise `asyncio.gather` on the exit task
re-raises a watcher failure, and on normal completion the child's recorded
return code is returned. -/
def awaitEnd (started : Bool) (s : SysState) : AwaitRes :=
  if started = false then AwaitRes.notStarted
  else if s.watcher = WatchSt.failed then AwaitRes.watcherError
  else AwaitRes.resultCode s.retcode

/-- Is an event the EXIT event? -/
def isExitEv : Event → Bool
  | Event.exitEv _ _ => true
  | _ => false

/-- No EXIT event occurs in the list. -/
def noExit (evs : List Event) : Bool :=
  evs.all (fun ev => !isExitEv ev)

/-- The safety invariant of the session transition system: once the watcher
has passed the join of the two pumps, both pumps are terminated; an EXIT
event in the trace means the watcher has completed its send; every event
before the last one is a non-EXIT event; and the watcher leaves its polling
state only after the child has exited. -/
def Inv (s : SysState) : Prop :=
  ((s.watcher = WatchSt.sending ∨ s.watcher = WatchSt.done ∨ s.watcher = WatchSt.failed) →
    s.outPump = PumpSt.done ∧ s.errPump = PumpSt.done)
  ∧ (noExit s.events = false → s.watcher = WatchSt.done)
  ∧ noExit s.events.dropLast = true
  ∧ (s.watcher ≠ WatchSt.polling → s.childRunning = false)

/-! ### Concrete executions used as witnesses and counterexamples

`h0`–`h10`: the scenario of the spec — the child writes one stdout line
`"a\n"` and one stderr line `"b\n"`, exits with code 0, both pumps drain,
and the watcher emits the final EXIT event. -/

def h0 : SysState := initState [97, 10] [98, 10] 7

def h1 : SysState :=
  { h0 with outBuf := [],
            outPump := pumpAfterRead (!h0.childRunning) h0.connected [97, 10] false }

def h2 : SysState :=
  { h1 with outPump := PumpSt.atRead,
            events := h1.events ++ [Event.stdoutEv h1.pid [97, 10] false] }

def h3 : SysState :=
  { h2 with errBuf := [],
            errPump := pumpAfterRead (!h2.childRunning) h2.connected [98, 10] false }

def h4 : SysState :=
  { h3 with errPump := PumpSt.atRead,
            events := h3.events ++ [Event.stderrEv h3.pid [98, 10]] }

def h5 : SysState := { h4 with childRunning := false, retcode := 0 }

def h6 : SysState :=
  { h5 with outBuf := [],
            outPump := pumpAfterRead (!h5.childRunning) h5.connected [] false }

def h7 : SysState :=
  { h6 with errBuf := [],
            errPump := pumpAfterRead (!h6.childRunning) h6.connected [] false }

def h8 : SysState := pollNext h7

def h9 : SysState :=
  { h8 with watcher := if h8.connected then WatchSt.sending else WatchSt.done }

def h10 : SysState :=
  { h9 with watcher := WatchSt.done,
            events := h9.events ++ [Event.exitEv h9.pid h9.retcode] }

/-! `g0`–`g3`: the stdout stream carries a marker line with a non-numeric
length field (`FF FF FF FF` `"x\n"`) followed by the plain line `"hi\n"`;
the decode error is caught and the pump goes on to relay the next line. -/

def g0 : SysState := initState [255, 255, 255, 255, 120, 10, 104, 105, 10] [] 1

def g1 : SysState := { g0 with outBuf := [104, 105, 10] }

def g2 : SysState :=
  { g1 with outBuf := [],
            outPump := pumpAfterRead (!g1.childRunning) g1.connected [104, 105, 10] false }

def g3 : SysState :=
  { g2 with outPump := PumpSt.atRead,
            events := g2.events ++ [Event.stdoutEv g2.pid [104, 105, 10] false] }

/-! `d0`–`d7`: the child exits with no output, both pumps drain, the watcher
passes its connectivity check, the client disconnects during the EXIT send,
and the send error propagates out of the watcher. -/

def d0 : SysState := initState [] [] 1

def d1 : SysState := { d0 with childRunning := false, retcode := 0 }

def d2 : SysState :=
  { d1 with outBuf := [],
            outPump := pumpAfterRead (!d1.childRunning) d1.connected [] false }

def d3 : SysState :=
  { d2 with errBuf := [],
            errPump := pumpAfterRead (!d2.childRunning) d2.connected [] false }

def d4 : SysState := pollNext d3

def d5 : SysState :=
  { d4 with watcher := if d4.connected then WatchSt.sending else WatchSt.done }

def d6 : SysState := { d5 with connected := false }

def d7 : SysState := { d6 with watcher := WatchSt.failed }

/-- A session that has already been started once (used to show `start()`
performs no not-already-started validation). -/
def sessionStartedOnce : Session := (start (mkSession "hw") 5).1

/-- A state whose stdout pump is suspended in a send while the client is
disconnected (its send raises and is caught). -/
def c2send : SysState :=
  { outBuf := [], errBuf := [], childRunning := true, retcode := 0, killed := false,
    connected := false, outPump := PumpSt.atSend [104] false, errPump := PumpSt.atRead,
    watcher := WatchSt.polling, events := [], pid := 1 }

/-- A state whose stderr pump is suspended in a send while the client is
disconnected (its send raises and is caught). -/
def c2errsend : SysState :=
  { outBuf := [], errBuf := [], childRunning := true, retcode := 0, killed := false,
    connected := false, outPump := PumpSt.atRead, errPump := PumpSt.atSend [98] false,
    watcher := WatchSt.polling, events := [], pid := 1 }

/-- A drained state whose watcher is at its join while the client is already
disconnected (the EXIT send is skipped). -/
def c3join : SysState := { d4 with connected := false }

/-- A running, disconnected state whose watcher is polling (the kill branch
fires on the next poll). -/
def c6s : SysState :=
  { outBuf := [], errBuf := [], childRunning := true, retcode := 0, killed := false,
    connected := false, outPump := PumpSt.atRead, errPump := PumpSt.atRead,
    watcher := WatchSt.polling, events := [], pid := 2 }

/-! ## Helper lemmas -/

theorem noExit_snoc (l : List Event) (a : Event) :
    noExit (l ++ [a]) = (noExit l && !isExitEv a) := by
  simp [noExit, List.all_append]

theorem noExit_decomp (l₁ : List Event) (x : Event) (r : List Event)
    (h : noExit (l₁ ++ x :: r).dropLast = true) (hx : isExitEv x = true) :
    r = [] := by
  induction l₁ with
  | nil =>
    cases r with
    | nil => rfl
    | cons y r' =>
      exfalso
      have h2 : noExit (x :: (y :: r').dropLast) = true := h
      simp [noExit, hx] at h2
  | cons a l₁' ih =>
    apply ih
    have hne : l₁' ++ x :: r ≠ [] := by simp
    rw [List.cons_append, List.dropLast_cons_of_ne_nil hne] at h
    simp only [noExit, List.all_cons, Bool.and_eq_true] at h ⊢
    exact h.2

theorem exit_count_le_one (l : List Event) (h : noExit l.dropLast = true) :
    (l.filter (fun ev => isExitEv ev)).length ≤ 1 := by
  rcases eq_or_ne l [] with rfl | hne
  · simp
  · conv_lhs => rw [← List.dropLast_concat_getLast hne]
    rw [List.filter_append, List.length_append]
    have h1 : (l.dropLast.filter (fun ev => isExitEv ev)).length = 0 := by
      rw [List.length_eq_zero, List.filter_eq_nil_iff]
      intro b hb
      simp only [noExit, List.all_eq_true] at h
      simpa using h b hb
    have h2 : (([l.getLast hne]).filter (fun ev => isExitEv ev)).length ≤ 1 := by
      by_cases hx : isExitEv (l.getLast hne) = true <;> simp [List.filter, hx]
    omega

theorem inv_init (o e : List Nat) (p : Nat) : Inv (initState o e p) := by
  refine ⟨?_, ?_, ?_, ?_⟩
  · intro hw
    rcases hw with h | h | h <;> exact WatchSt.noConfusion h
  · intro hne
    exact Bool.noConfusion hne
  · rfl
  · intro hw
    exact absurd rfl hw

theorem inv_step {s t : SysState} (hs : Inv s) (hst : Step s t) : Inv t := by
  obtain ⟨h1, h2, h3, h4⟩ := hs
  cases hst with
  | childExit rc hr =>
    exact ⟨h1, h2, h3, fun _ => rfl⟩
  | disconnect hc =>
    exact ⟨h1, h2, h3, h4⟩
  | outRead d p rest hp hr =>
    refine ⟨?_, h2, h3, h4⟩
    intro hw
    have ho := (h1 hw).1
    rw [hp] at ho
    exact PumpSt.noConfusion ho
  | outReadErr rest hp hr =>
    exact ⟨h1, h2, h3, h4⟩
  | outSendOk d p hp hc =>
    have hnx : noExit s.events = true := by
      by_contra hcon
      have hf : noExit s.events = false := by
        revert hcon; cases noExit s.events <;> simp
      have hwd := h2 hf
      have ho := (h1 (Or.inr (Or.inl hwd))).1
      rw [hp] at ho
      exact PumpSt.noConfusion ho
    refine ⟨?_, ?_, ?_, h4⟩
    · intro hw
      have ho := (h1 hw).1
      rw [hp] at ho
      exact PumpSt.noConfusion ho
    · intro hne
      exfalso
      rw [noExit_snoc] at hne
      simp [isExitEv, hnx] at hne
    · rw [List.dropLast_concat]
      exact hnx
  | outSendFail d p hp hc =>
    refine ⟨?_, h2, h3, h4⟩
    intro hw
    have ho := (h1 hw).1
    rw [hp] at ho
    exact PumpSt.noConfusion ho
  | errRead d p rest hp hr =>
    refine ⟨?_, h2, h3, h4⟩
    intro hw
    have ho := (h1 hw).2
    rw [hp] at ho
    exact PumpSt.noConfusion ho
  | errSendOk d p hp hc =>
    have hnx : noExit s.events = true := by
      by_contra hcon
      have hf : noExit s.events = false := by
        revert hcon; cases noExit s.events <;> simp
      have hwd := h2 hf
      have ho := (h1 (Or.inr (Or.inl hwd))).2
      rw [hp] at ho
      exact PumpSt.noConfusion ho
    refine ⟨?_, ?_, ?_, h4⟩
    · intro hw
      have ho := (h1 hw).2
      rw [hp] at ho
      exact PumpSt.noConfusion ho
    · intro hne
      exfalso
      rw [noExit_snoc] at hne
      simp [isExitEv, hnx] at hne
    · rw [List.dropLast_concat]
      exact hnx
  | errSendFail d p hp hc =>
    refine ⟨?_, h2, h3, h4⟩
    intro hw
    have ho := (h1 hw).2
    rw [hp] at ho
    exact PumpSt.noConfusion ho
  | watchPoll hw =>
    by_cases hcr : s.childRunning = false
    · have hpn : pollNext s = { s with
          killed := if s.connected = false then true else s.killed,
          watcher := WatchSt.draining } := by
        simp only [pollNext]
        rw [if_pos hcr]
      rw [hpn]
      refine ⟨?_, ?_, h3, fun _ => hcr⟩
      · intro hw2
        rcases hw2 with h' | h' | h' <;> exact WatchSt.noConfusion h'
      · intro hne
        have := h2 hne
        rw [hw] at this
        exact WatchSt.noConfusion this
    · have hpn : pollNext s = { s with
          killed := if s.connected = false then true else s.killed } := by
        simp only [pollNext]
        rw [if_neg hcr]
      rw [hpn]
      refine ⟨?_, ?_, h3, ?_⟩
      · intro hw2
        have hw3 : s.watcher = WatchSt.sending ∨ s.watcher = WatchSt.done ∨
            s.watcher = WatchSt.failed := hw2
        rw [hw] at hw3
        rcases hw3 with h' | h' | h' <;> exact WatchSt.noConfusion h'
      · intro hne
        have := h2 hne
        rw [hw] at this
        exact WatchSt.noConfusion this
      · intro hwne
        exact absurd hw hwne
  | watchJoin hw ho he =>
    refine ⟨fun _ => ⟨ho, he⟩, ?_, h3, ?_⟩
    · intro hne
      have := h2 hne
      rw [hw] at this
      exact WatchSt.noConfusion this
    · intro _
      exact h4 (by rw [hw]; decide)
  | watchSendOk hw hc =>
    have hnx : noExit s.events = true := by
      by_contra hcon
      have hf : noExit s.events = false := by
        revert hcon; cases noExit s.events <;> simp
      have hwd := h2 hf
      rw [hw] at hwd
      exact WatchSt.noConfusion hwd
    refine ⟨fun _ => h1 (Or.inl hw), fun _ => rfl, ?_, ?_⟩
    · rw [List.dropLast_concat]
      exact hnx
    · intro _
      exact h4 (by rw [hw]; decide)
  | watchSendFail hw hc =>
    refine ⟨fun _ => h1 (Or.inl hw), ?_, h3, ?_⟩
    · intro hne
      have := h2 hne
      rw [hw] at this
      exact WatchSt.noConfusion this
    · intro _
      exact h4 (by rw [hw]; decide)

theorem inv_reach {o e : List Nat} {p : Nat} {s : SysState}
    (h : Reach (initState o e p) s) : Inv s := by
  induction h with
  | refl => exact inv_init o e p
  | tail a b hr hst ih => exact inv_step ih hst

theorem step_disconnected {s t : SysState} (hst : Step s t)
    (hc : s.connected = false) :
    t.connected = false ∧ t.events = s.events := by
  cases hst with
  | childExit rc hr => exact ⟨hc, rfl⟩
  | disconnect hcon => rw [hcon] at hc; simp at hc
  | outRead d p rest hp hr => exact ⟨hc, rfl⟩
  | outReadErr rest hp hr => exact ⟨hc, rfl⟩
  | outSendOk d p hp hcon => rw [hcon] at hc; simp at hc
  | outSendFail d p hp hcon => exact ⟨hc, rfl⟩
  | errRead d p rest hp hr => exact ⟨hc, rfl⟩
  | errSendOk d p hp hcon => rw [hcon] at hc; simp at hc
  | errSendFail d p hp hcon => exact ⟨hc, rfl⟩
  | watchPoll hw =>
    simp only [pollNext]
    split <;> exact ⟨hc, rfl⟩
  | watchJoin hw ho he => exact ⟨hc, rfl⟩
  | watchSendOk hw hcon => rw [hcon] at hc; simp at hc
  | watchSendFail hw hcon => exact ⟨hc, rfl⟩

theorem reach_disconnected {s t : SysState} (h : Reach s t)
    (hc : s.connected = false) :
    t.connected = false ∧ t.events = s.events := by
  induction h with
  | refl => exact ⟨hc, rfl⟩
  | tail a b hr hst ih =>
    obtain ⟨hcb, hev⟩ := ih
    obtain ⟨hcc, hev2⟩ := step_disconnected hst hcb
    exact ⟨hcc, hev2.trans hev⟩

theorem step_exited_frozen {s t : SysState} (hst : Step s t)
    (hc : s.childRunning = false) :
    t.childRunning = false ∧ t.retcode = s.retcode := by
  cases hst with
  | childExit rc hr => rw [hr] at hc; simp at hc
  | disconnect hcon => exact ⟨hc, rfl⟩
  | outRead d p rest hp hr => exact ⟨hc, rfl⟩
  | outReadErr rest hp hr => exact ⟨hc, rfl⟩
  | outSendOk d p hp hcon => exact ⟨hc, rfl⟩
  | outSendFail d p hp hcon => exact ⟨hc, rfl⟩
  | errRead d p rest hp hr => exact ⟨hc, rfl⟩
  | errSendOk d p hp hcon => exact ⟨hc, rfl⟩
  | errSendFail d p hp hcon => exact ⟨hc, rfl⟩
  | watchPoll hw =>
    simp only [pollNext]
    split <;> exact ⟨hc, rfl⟩
  | watchJoin hw ho he => exact ⟨hc, rfl⟩
  | watchSendOk hw hcon => exact ⟨hc, rfl⟩
  | watchSendFail hw hcon => exact ⟨hc, rfl⟩

theorem reach_exited_frozen {s t : SysState} (h : Reach s t)
    (hc : s.childRunning = false) :
    t.childRunning = false ∧ t.retcode = s.retcode := by
  induction h with
  | refl => exact ⟨hc, rfl⟩
  | tail a b hr hst ih =>
    obtain ⟨hcb, hrc⟩ := ih
    obtain ⟨hcc, hrc2⟩ := step_exited_frozen hst hcb
    exact ⟨hcc, hrc2.trans hrc⟩

theorem pollNext_eq_of_exited {s : SysState} (h : s.childRunning = false) :
    pollNext s = { s with
      killed := if s.connected = false then true else s.killed,
      watcher := WatchSt.draining } := by
  simp only [pollNext]
  rw [if_pos h]

theorem pollNext_eq_of_running {s : SysState} (h : ¬s.childRunning = false) :
    pollNext s = { s with
      killed := if s.connected = false then true else s.killed } := by
  simp only [pollNext]
  rw [if_neg h]

theorem pyReadline_append (xs ys : List Nat) (h : (10 : Nat) ∉ xs) :
    pyReadline (xs ++ 10 :: ys) = (xs ++ [10], ys) := by
  induction xs with
  | nil => simp [pyReadline]
  | cons b bs ih =>
    have hb : ¬b = 10 := fun hb => h (by simp [hb])
    have hbs : (10 : Nat) ∉ bs := fun hm => h (by simp [hm])
    rw [List.cons_append]
    rw [show pyReadline (b :: (bs ++ 10 :: ys)) =
        (b :: (pyReadline (bs ++ 10 :: ys)).1, (pyReadline (bs ++ 10 :: ys)).2) from by
      simp [pyReadline, hb]]
    rw [ih hbs]
    simp

/-! ### The concrete executions are genuine runs of the system -/

theorem step_h0_h1 : Step h0 h1 := Step.outRead h0 [97, 10] false [] rfl (by decide)

theorem step_h1_h2 : Step h1 h2 := Step.outSendOk h1 [97, 10] false (by decide) rfl

theorem step_h2_h3 : Step h2 h3 := Step.errRead h2 [98, 10] false [] rfl (by decide)

theorem step_h3_h4 : Step h3 h4 := Step.errSendOk h3 [98, 10] false (by decide) rfl

theorem step_h4_h5 : Step h4 h5 := Step.childExit h4 0 rfl

theorem step_h5_h6 : Step h5 h6 := Step.outRead h5 [] false [] rfl (by decide)

theorem step_h6_h7 : Step h6 h7 := Step.errRead h6 [] false [] rfl (by decide)

theorem step_h7_h8 : Step h7 h8 := Step.watchPoll h7 rfl

theorem step_h8_h9 : Step h8 h9 :=
  Step.watchJoin h8 (by decide) (by decide) (by decide)

theorem step_h9_h10 : Step h9 h10 :=
  Step.watchSendOk h9 (by decide) (by decide)

theorem happyReach : Reach h0 h10 :=
  Reach.tail h0 h9 h10
    (Reach.tail h0 h8 h9
      (Reach.tail h0 h7 h8
        (Reach.tail h0 h6 h7
          (Reach.tail h0 h5 h6
            (Reach.tail h0 h4 h5
              (Reach.tail h0 h3 h4
                (Reach.tail h0 h2 h3
                  (Reach.tail h0 h1 h2
                    (Reach.tail h0 h0 h1 (Reach.refl h0) step_h0_h1)
                    step_h1_h2)
                  step_h2_h3)
                step_h3_h4)
              step_h4_h5)
            step_h5_h6)
          step_h6_h7)
        step_h7_h8)
      step_h8_h9)
    step_h9_h10

theorem step_g0_g1 : Step g0 g1 :=
  Step.outReadErr g0 [104, 105, 10] rfl (by decide)

theorem step_g1_g2 : Step g1 g2 :=
  Step.outRead g1 [104, 105, 10] false [] rfl (by decide)

theorem step_g2_g3 : Step g2 g3 :=
  Step.outSendOk g2 [104, 105, 10] false (by decide) rfl

theorem gReach : Reach g0 g3 :=
  Reach.tail g0 g2 g3
    (Reach.tail g0 g1 g2
      (Reach.tail g0 g0 g1 (Reach.refl g0) step_g0_g1)
      step_g1_g2)
    step_g2_g3

theorem step_d0_d1 : Step d0 d1 := Step.childExit d0 0 rfl

theorem step_d1_d2 : Step d1 d2 := Step.outRead d1 [] false [] rfl (by decide)

theorem step_d2_d3 : Step d2 d3 := Step.errRead d2 [] false [] rfl (by decide)

theorem step_d3_d4 : Step d3 d4 := Step.watchPoll d3 rfl

theorem step_d4_d5 : Step d4 d5 :=
  Step.watchJoin d4 (by decide) (by decide) (by decide)

theorem step_d5_d6 : Step d5 d6 := Step.disconnect d5 (by decide)

theorem step_d6_d7 : Step d6 d7 :=
  Step.watchSendFail d6 (by decide) (by decide)

theorem dReach : Reach d0 d7 :=
  Reach.tail d0 d6 d7
    (Reach.tail d0 d5 d6
      (Reach.tail d0 d4 d5
        (Reach.tail d0 d3 d4
          (Reach.tail d0 d2 d3
            (Reach.tail d0 d1 d2
              (Reach.tail d0 d0 d1 (Reach.refl d0) step_d0_d1)
              step_d1_d2)
            step_d2_d3)
          step_d3_d4)
        step_d4_d5)
      step_d5_d6)
    step_d6_d7

/-! ## Claim theorems -/

/-- C1: for every session run, at most one EXIT event is emitted, it is the
last event, it is never followed by a STDOUT or STDERR event, and hence it is
ordered strictly after every STDOUT/STDERR event drained before exit
detection (the watcher joins both pump tasks before sending it): in every
reachable state, every event before the last one is a non-EXIT event, the
trace holds at most one EXIT event, and any EXIT event has nothing after
it. -/
theorem exit_event_at_most_once_and_last (o e : List Nat) (p : Nat)
    (s : SysState) (h : Reach (initState o e p) s) :
    noExit s.events.dropLast = true
    ∧ (s.events.filter (fun ev => isExitEv ev)).length ≤ 1
    ∧ (∀ l1 x r, s.events = l1 ++ x :: r → isExitEv x = true → r = []) := by
  obtain ⟨-, -, h3, -⟩ := inv_reach h
  refine ⟨h3, exit_count_le_one _ h3, ?_⟩
  intro l1 x r hev hx
  exact noExit_decomp l1 x r (by rw [← hev]; exact h3) hx

/-- Witness for C1, on the run where the child writes `"a\n"` to stdout and
`"b\n"` to stderr and exits 0: the final trace is STDOUT, STDERR, EXIT. -/
theorem exit_event_at_most_once_and_last_witness :
    noExit h10.events.dropLast = true
    ∧ (h10.events.filter (fun ev => isExitEv ev)).length ≤ 1
    ∧ (∀ l1 x r, h10.events = l1 ++ x :: r → isExitEv x = true → r = []) :=
  exit_event_at_most_once_and_last [97, 10] [98, 10] 7 h10 happyReach

/-- C2 counterexample: a malformed (non-numeric) prompt-length field does
NOT terminate the owning pump loop.  On the stream
`FF FF FF FF "x\n"` + `"hi\n"`, the decode raises, the error is caught, and
the pump is still at the top of its loop (`atRead`, not `done`); it then
relays the following line as a STDOUT event. -/
theorem pump_error_nontermination_cex :
    readStdoutStep g0.outBuf (!g0.childRunning) = ReadRes.decodeErr [104, 105, 10]
    ∧ Step g0 g1
    ∧ g1.outPump = PumpSt.atRead
    ∧ g1.outPump ≠ PumpSt.done
    ∧ Reach g0 g3
    ∧ g3.events = [Event.stdoutEv 1 [104, 105, 10] false] :=
  ⟨by decide, step_g0_g1, rfl, by decide, gReach, by decide⟩

/-- C2 (amended): every decode or send error raised inside a pump loop —
stdout pump or stderr pump — is caught and logged, does not propagate, and
does not crash the sibling pump or the exit watcher: their control states,
and the event trace, are untouched; however the owning pump loop does not
terminate on the error, it continues with its next iteration.  The error
cases of the two loops in this byte-level embedding: the stdout pump's
decode error (malformed, non-numeric prompt-length field) and send error,
and the stderr pump's send error (stderr uses plain line framing, whose
decoding has no failure case over raw bytes). -/
theorem pump_error_contained_loop_continues (s : SysState) :
    (∀ rest, s.outPump = PumpSt.atRead →
      readStdoutStep s.outBuf (!s.childRunning) = ReadRes.decodeErr rest →
      Step s { s with outBuf := rest }
      ∧ ({ s with outBuf := rest }).outPump = PumpSt.atRead
      ∧ ({ s with outBuf := rest }).errPump = s.errPump
      ∧ ({ s with outBuf := rest }).watcher = s.watcher
      ∧ ({ s with outBuf := rest }).events = s.events)
    ∧ (∀ d pr, s.outPump = PumpSt.atSend d pr → s.connected = false →
      Step s { s with outPump := PumpSt.atRead }
      ∧ ({ s with outPump := PumpSt.atRead }).errPump = s.errPump
      ∧ ({ s with outPump := PumpSt.atRead }).watcher = s.watcher
      ∧ ({ s with outPump := PumpSt.atRead }).events = s.events)
    ∧ (∀ d pr, s.errPump = PumpSt.atSend d pr → s.connected = false →
      Step s { s with errPump := PumpSt.atRead }
      ∧ ({ s with errPump := PumpSt.atRead }).outPump = s.outPump
      ∧ ({ s with errPump := PumpSt.atRead }).watcher = s.watcher
      ∧ ({ s with errPump := PumpSt.atRead }).events = s.events) := by
  refine ⟨?_, ?_, ?_⟩
  · intro rest hp he
    exact ⟨Step.outReadErr s rest hp he, hp, rfl, rfl, rfl⟩
  · intro d pr hp hc
    exact ⟨Step.outSendFail s d pr hp hc, rfl, rfl, rfl⟩
  · intro d pr hp hc
    exact ⟨Step.errSendFail s d pr hp hc, rfl, rfl, rfl⟩

/-- Witness for the amended C2: the stdout decode-error part at the
malformed-length stream `g0`, the stdout send-error part at a disconnected
sending state, and the stderr send-error part at a disconnected state whose
stderr pump is sending. -/
theorem pump_error_contained_loop_continues_witness :
    (Step g0 { g0 with outBuf := [104, 105, 10] }
      ∧ ({ g0 with outBuf := [104, 105, 10] }).outPump = PumpSt.atRead
      ∧ ({ g0 with outBuf := [104, 105, 10] }).errPump = g0.errPump
      ∧ ({ g0 with outBuf := [104, 105, 10] }).watcher = g0.watcher
      ∧ ({ g0 with outBuf := [104, 105, 10] }).events = g0.events)
    ∧ (Step c2send { c2send with outPump := PumpSt.atRead }
      ∧ ({ c2send with outPump := PumpSt.atRead }).errPump = c2send.errPump
      ∧ ({ c2send with outPump := PumpSt.atRead }).watcher = c2send.watcher
      ∧ ({ c2send with outPump := PumpSt.atRead }).events = c2send.events)
    ∧ (Step c2errsend { c2errsend with errPump := PumpSt.atRead }
      ∧ ({ c2errsend with errPump := PumpSt.atRead }).outPump = c2errsend.outPump
      ∧ ({ c2errsend with errPump := PumpSt.atRead }).watcher = c2errsend.watcher
      ∧ ({ c2errsend with errPump := PumpSt.atRead }).events = c2errsend.events) :=
  ⟨(pump_error_contained_loop_continues g0).1 [104, 105, 10] rfl (by decide),
   (pump_error_contained_loop_continues c2send).2.1 [104] false rfl rfl,
   (pump_error_contained_loop_continues c2errsend).2.2 [98] false rfl rfl⟩

/-- C3 counterexample: the watcher CAN fail.  If the client disconnects after
the watcher's post-drain connectivity check but before the EXIT send
completes, the send raises, no handler catches it inside `_exit`, the
watcher ends `failed` instead of reaching its terminal break, and
`await_end()` surfaces the watcher error. -/
theorem watcher_send_failure_cex :
    Reach d0 d7
    ∧ d7.watcher = WatchSt.failed
    ∧ awaitEnd true d7 = AwaitRes.watcherError :=
  ⟨dReach, rfl, by decide⟩

/-- C3 (amended): after draining both pumps the watcher skips the EXIT send
and reaches its terminal state when the sink is already disconnected at the
join; when the connectivity check passes it sends EXIT and terminates; but a
watcher failure is possible, originating exactly from an EXIT send attempted
while the sink is disconnected — in that case the send error propagates (and
no event is emitted by the failing step). -/
theorem watcher_skip_send_and_failure_origin (s : SysState) :
    (s.watcher = WatchSt.draining → s.outPump = PumpSt.done →
      s.errPump = PumpSt.done → s.connected = false →
      Step s { s with watcher := WatchSt.done })
    ∧ (s.watcher = WatchSt.sending → s.connected = true →
      Step s { s with watcher := WatchSt.done,
                      events := s.events ++ [Event.exitEv s.pid s.retcode] })
    ∧ (∀ t, Step s t → t.watcher = WatchSt.failed →
      s.watcher = WatchSt.failed
      ∨ (s.watcher = WatchSt.sending ∧ s.connected = false ∧ t.events = s.events)) := by
  refine ⟨?_, ?_, ?_⟩
  · intro hw ho he hc
    simpa [hc] using Step.watchJoin s hw ho he
  · intro hw hc
    exact Step.watchSendOk s hw hc
  · intro t hst hf
    cases hst with
    | childExit rc hr => exact Or.inl hf
    | disconnect hc => exact Or.inl hf
    | outRead d p rest hp hr => exact Or.inl hf
    | outReadErr rest hp hr => exact Or.inl hf
    | outSendOk d p hp hc => exact Or.inl hf
    | outSendFail d p hp hc => exact Or.inl hf
    | errRead d p rest hp hr => exact Or.inl hf
    | errSendOk d p hp hc => exact Or.inl hf
    | errSendFail d p hp hc => exact Or.inl hf
    | watchPoll hw =>
      by_cases hcr : s.childRunning = false
      · rw [pollNext_eq_of_exited hcr] at hf
        exact WatchSt.noConfusion hf
      · rw [pollNext_eq_of_running hcr] at hf
        exact Or.inl hf
    | watchJoin hw ho he =>
      cases hcc : s.connected with
      | true => rw [hcc] at hf; simp at hf
      | false => rw [hcc] at hf; simp at hf
    | watchSendOk hw hc => exact WatchSt.noConfusion hf
    | watchSendFail hw hc => exact Or.inr ⟨hw, hc, rfl⟩

/-- Witness for the amended C3: the skip-send path at a drained disconnected
join state, the successful send at `d5`, and the failure origin of the step
`d6 → d7`. -/
theorem watcher_skip_send_and_failure_origin_witness :
    Step c3join { c3join with watcher := WatchSt.done }
    ∧ Step d5 { d5 with watcher := WatchSt.done,
                        events := d5.events ++ [Event.exitEv d5.pid d5.retcode] }
    ∧ (d6.watcher = WatchSt.failed
      ∨ (d6.watcher = WatchSt.sending ∧ d6.connected = false
          ∧ d7.events = d6.events)) :=
  ⟨(watcher_skip_send_and_failure_origin c3join).1 (by decide) (by decide) (by decide) rfl,
   (watcher_skip_send_and_failure_origin d5).2.1 (by decide) (by decide),
   (watcher_skip_send_and_failure_origin d6).2.2 d7 step_d6_d7 rfl⟩

/-- C4: for a stdout marker line `FF FF FF FF` + `"5\n"` followed by a
5-byte payload, the decoder yields exactly one unit `(payload, true)`,
consuming precisely 5 payload bytes (even when the payload contains
newlines) and leaving the rest of the stream untouched; in particular for
payload `"hello"` it yields `("hello", true)`. -/
theorem prompt_framing_five_bytes (payload rest : List Nat)
    (h : payload.length = 5) :
    read_stdout ([255, 255, 255, 255, 53, 10] ++ (payload ++ rest))
      = Except.ok ((payload, true), rest)
    ∧ read_stdout [255, 255, 255, 255, 53, 10, 104, 101, 108, 108, 111]
      = Except.ok (([104, 101, 108, 108, 111], true), []) := by
  refine ⟨?_, by rfl⟩
  have e1 : read_stdout ([255, 255, 255, 255, 53, 10] ++ (payload ++ rest))
      = Except.ok ((((payload ++ rest).take 5 : List Nat), true),
          ((payload ++ rest).drop 5 : List Nat)) := rfl
  rw [e1, List.take_left' h, List.drop_left' h]

/-- Witness for C4, with a payload that itself contains a newline
(`"h\nllo"`) followed by one extra byte of stream. -/
theorem prompt_framing_five_bytes_witness :
    read_stdout ([255, 255, 255, 255, 53, 10] ++ ([104, 10, 108, 108, 111] ++ [33]))
      = Except.ok (([104, 10, 108, 108, 111], true), [33])
    ∧ read_stdout [255, 255, 255, 255, 53, 10, 104, 101, 108, 108, 111]
      = Except.ok (([104, 101, 108, 108, 111], true), []) :=
  prompt_framing_five_bytes [104, 10, 108, 108, 111] [33] rfl

/-- C5 counterexample: on the marker-free line `"a\n"` the decoder yields
text `"a\n"` — the line content INCLUDING its newline terminator — not the
line minus its terminator as the claim states. -/
theorem line_unit_keeps_newline_cex :
    read_stdout [97, 10] = Except.ok (([97, 10], false), [])
    ∧ read_stdout [97, 10] ≠ Except.ok (([97], false), []) := by
  refine ⟨rfl, ?_⟩
  intro hcon
  rw [show read_stdout [97, 10] = Except.ok (([97, 10], false), []) from rfl] at hcon
  simp at hcon

/-- C5 (amended): for every stdout byte sequence whose first line does not
begin with the 4-byte marker, the decoder yields a line unit with
`isPrompt = false` and with text equal to the full line content including
its newline terminator. -/
theorem line_unit_text_is_full_line (s line rest : List Nat)
    (h : pyReadline s = (line, rest)) (hm : line.take 4 ≠ promptMarker) :
    read_stdout s = Except.ok ((line, false), rest) := by
  simp only [read_stdout, h]
  rw [if_neg hm]

/-- Witness for the amended C5 at the stream `"a\n"`. -/
theorem line_unit_text_is_full_line_witness :
    read_stdout [97, 10] = Except.ok (([97, 10], false), []) :=
  line_unit_text_is_full_line [97, 10] [97, 10] [] rfl (by decide)

/-- C6: whenever the sink reports "not connected" while the watcher is
polling, the very next poll iteration issues `kill()` on the child (this is
the one-poll-interval bound of the claim), the watcher stays in its loop
when the child is still running (awaiting the subsequent exit observation),
and no further STDOUT/STDERR event — indeed no event at all — is ever sent
from that point on. -/
theorem kill_on_disconnect_and_no_further_events (s : SysState)
    (hw : s.watcher = WatchSt.polling) (hc : s.connected = false) :
    (pollNext s).killed = true
    ∧ Step s (pollNext s)
    ∧ (s.childRunning = true → (pollNext s).watcher = WatchSt.polling)
    ∧ (∀ t, Reach s t → t.events = s.events) := by
  refine ⟨?_, Step.watchPoll s hw, ?_, ?_⟩
  · by_cases hcr : s.childRunning = false
    · rw [pollNext_eq_of_exited hcr]
      simp [hc]
    · rw [pollNext_eq_of_running hcr]
      simp [hc]
  · intro hrun
    have hcr : ¬s.childRunning = false := by rw [hrun]; simp
    rw [pollNext_eq_of_running hcr]
    exact hw
  · intro t hr
    exact (reach_disconnected hr hc).2

/-- Witness for C6 at a running, disconnected, polling state. -/
theorem kill_on_disconnect_and_no_further_events_witness :
    (pollNext c6s).killed = true
    ∧ Step c6s (pollNext c6s)
    ∧ (c6s.childRunning = true → (pollNext c6s).watcher = WatchSt.polling)
    ∧ (∀ t, Reach c6s t → t.events = c6s.events) :=
  kill_on_disconnect_and_no_further_events c6s rfl rfl

/-- C7: `await_end()` called before `start()` fails with the not-started
error; called after, once the watcher has reached its terminal state, it
returns exactly the child's recorded exit code — the child has indeed
exited by then, and that recorded code never changes afterwards. -/
theorem await_end_contract (o e : List Nat) (p : Nat) (s : SysState)
    (hr : Reach (initState o e p) s) (hdone : s.watcher = WatchSt.done) :
    (∀ u : SysState, awaitEnd false u = AwaitRes.notStarted)
    ∧ awaitEnd true s = AwaitRes.resultCode s.retcode
    ∧ s.childRunning = false
    ∧ (∀ t, Reach s t → t.retcode = s.retcode) := by
  obtain ⟨-, -, -, h4⟩ := inv_reach hr
  have hcr : s.childRunning = false := h4 (by rw [hdone]; decide)
  refine ⟨fun u => rfl, ?_, hcr, fun t ht => (reach_exited_frozen ht hcr).2⟩
  unfold awaitEnd
  rw [if_neg (by simp), if_neg (by rw [hdone]; decide)]

/-- Witness for C7 on the run ending at `h10` (exit code 0). -/
theorem await_end_contract_witness :
    (∀ u : SysState, awaitEnd false u = AwaitRes.notStarted)
    ∧ awaitEnd true h10 = AwaitRes.resultCode h10.retcode
    ∧ h10.childRunning = false
    ∧ (∀ t, Reach h10 t → t.retcode = h10.retcode) :=
  await_end_contract [97, 10] [98, 10] 7 h10 happyReach (by decide)

/-- C8 counterexample: `start()` performs NO not-already-started validation.
Started once (pid 5), a second `start()` returns normally with the new pid 6
and silently overwrites the process handle, instead of failing. -/
theorem start_no_revalidation_cex :
    sessionStartedOnce.process.isSome = true
    ∧ (start sessionStartedOnce 6).2 = 6
    ∧ (start sessionStartedOnce 6).1.pidField = some 6
    ∧ sessionStartedOnce.pidField = some 5 :=
  ⟨rfl, rfl, rfl, rfl⟩

/-- C8 (amended): `start()` spawns the child via `_open_child_process`,
wires its stdin pipe, launches the output pump, error pump and exit watcher
tasks, and returns the child's pid immediately — unconditionally, with no
validation that the session is not already started. -/
theorem start_spawns_and_launches_tasks (s : Session) (osPid : Nat) :
    (start s osPid).2 = osPid
    ∧ (start s osPid).1.process = some (open_child_process s.module)
    ∧ (start s osPid).1.stdinWired = true
    ∧ (start s osPid).1.stdoutTaskStarted = true
    ∧ (start s osPid).1.stderrTaskStarted = true
    ∧ (start s osPid).1.exitTaskStarted = true :=
  ⟨rfl, rfl, rfl, rfl, rfl, rfl⟩

/-- C9: the child is always started with a command line that disables the
frozen-modules optimization, passes the target module name as the sole
argument after the wrapper module, and requests unbuffered (`bufsize=0`)
text I/O with all three standard streams piped. -/
theorem child_command_line_contract (m : String) :
    (open_child_process m).args
      = ["python3", "-Xfrozen_modules=off", "-m", "server.wrappers.module"] ++ [m]
    ∧ (open_child_process m).args.contains "-Xfrozen_modules=off" = true
    ∧ (open_child_process m).bufsize = 0
    ∧ (open_child_process m).text = true
    ∧ (open_child_process m).stdinPipe = true
    ∧ (open_child_process m).stdoutPipe = true
    ∧ (open_child_process m).stderrPipe = true := by
  refine ⟨rfl, ?_, rfl, rfl, rfl, rfl, rfl⟩
  simp [open_child_process, List.contains]

/-- C10: a marker line whose length field parses as a negative decimal
integer raises no malformed-length error: the parse succeeds (shown for the
field `"-5\n"`), and the negative length makes `read` consume the remainder
of the stream to end-of-stream, yielding it all as one unit with
`isPrompt = true`. -/
theorem negative_length_reads_to_eof (numField payload : List Nat) (n : Int)
    (hp : pyInt (numField ++ [10]) = some n) (hneg : n < 0)
    (hnl : (10 : Nat) ∉ numField) :
    read_stdout ((promptMarker ++ numField) ++ 10 :: payload)
      = Except.ok ((payload, true), [])
    ∧ pyInt [45, 53, 10] = some (-5) := by
  refine ⟨?_, by rfl⟩
  have hnm : (10 : Nat) ∉ promptMarker ++ numField := by
    intro hm
    rcases List.mem_append.mp hm with hm | hm
    · simp [promptMarker] at hm
    · exact hnl hm
  have hr := pyReadline_append (promptMarker ++ numField) payload hnm
  simp only [read_stdout, hr]
  rw [List.append_assoc,
      List.take_left' (show promptMarker.length = 4 from rfl),
      List.drop_left' (show promptMarker.length = 4 from rfl),
      if_pos rfl, hp]
  simp only [promptPayload, streamRead, if_pos hneg]

/-- Witness for C10: length field `"-5"`, payload `"ab\ncd"` — everything
after the marker line is returned as a single prompt unit. -/
theorem negative_length_reads_to_eof_witness :
    read_stdout ((promptMarker ++ [45, 53]) ++ 10 :: [97, 98, 10, 99, 100])
      = Except.ok (([97, 98, 10, 99, 100], true), [])
    ∧ pyInt [45, 53, 10] = some (-5) :=
  negative_length_reads_to_eof [45, 53] [97, 98, 10, 99, 100] (-5)
    (by decide) (by decide) (by decide)

end AsyncPySub
